import Mathlib

/-!
Verification of the Scout assistant turn orchestrator
(`lib/assistant/orchestrator.ts`).

Shallow embedding: the pure computations of the orchestrator are
translated directly; every external effect (the reasoning collaborator,
the Linkup search collaborator, the Scout extraction collaborator, the
final text-generation call, and the clock) is modelled as an oracle
recorded in an `Env` value. A thrown JavaScript exception is modelled as
`Except.error`; JSON runtime values are modelled by the `Json` inductive;
`undefined`-able fields are `Option`s. Because the TypeScript code casts
the parsed analyzer response without validation, the runtime value of
`analysis.stage` is an arbitrary string, so the embedded `AnalysisResult`
keeps `stage : String` (this is what the running program actually holds,
the `Stage` type alias notwithstanding).
-/

namespace Scout

/-- Runtime JSON values (the `unknown` payloads of the TypeScript code). -/
inductive Json where
  | null : Json
  | bool : Bool → Json
  | num : Int → Json
  | str : String → Json
  | arr : List Json → Json
  | obj : List (String × Json) → Json
deriving Repr

inductive Role where
  | user
  | assistant
  | system
deriving Repr, DecidableEq

structure ChatMessage where
  role : Role
  content : String
  timestamp : Option String
deriving Repr, DecidableEq

/-- The runtime value obtained by `safeJsonParse<AnalysisResult>`: the cast
performs no validation, so `stage` is an arbitrary string at runtime. The
numeric `confidence` field is never read by the orchestrator; it is carried
opaquely. -/
structure AnalysisResult where
  stage : String
  summary : String
  missing_information : List String
  follow_up_question : Option String
  search_queries : List String
  should_call_linkup : Bool
  should_call_scout : Bool
  scout_prompt : Option String
  confidence : Option Int
deriving Repr, DecidableEq

structure LinkupPayload where
  q : String
  depth : String
  outputType : String
  includeSources : Bool
  includeInlineCitations : Bool
  includeImages : Bool
  fromDate : Option String
  toDate : Option String
  excludeDomains : Option (List String)
  includeDomains : Option (List String)
  structuredOutputSchema : Option Json
deriving Repr

structure LinkupResult where
  query : String
  ok : Bool
  data : Option Json
  error : Option String
  took_ms : Option Nat
  payload : LinkupPayload
deriving Repr

structure ScoutProcessorResponse where
  session_id : Option (Option String)
  prompt : String
  parameters : List (String × Json)
  meta : List (String × Json)
deriving Repr

structure LinkupBlock where
  attempted : Bool
  queries : List String
  results : List LinkupResult
deriving Repr

structure OrchestratorResult where
  sessionId : String
  stage : String
  assistantMessage : String
  missingInformation : List String
  analysis : AnalysisResult
  parameters : List (String × Json)
  linkup : LinkupBlock
  scout : Option ScoutProcessorResponse
  meta : List (String × Json)
deriving Repr

/-- The configuration record handed to the constructor. -/
structure OrchestratorConfig where
  openaiApiKey : String
  model : Option String
  scoutApiUrl : String
  linkupApiKey : Option String
  linkupApiUrl : Option String
  linkupDepth : Option String
  linkupOutputType : Option String
  linkupIncludeSources : Option Bool
  linkupIncludeInlineCitations : Option Bool
  linkupIncludeImages : Option Bool
  linkupFromDate : Option String
  linkupToDate : Option String
  linkupIncludeDomains : Option (List String)
  linkupExcludeDomains : Option (List String)
  linkupStructuredOutputSchema : Option Json

/-- The private fields of `ScoutAssistantOrchestrator` after the
constructor has applied the `??` defaults. Note that `linkupApiUrl` is a
plain string after `config.linkupApiUrl ?? "https://api.linkup.so/v1/search"`
(it can still be the empty string, which is falsy). -/
structure Orchestrator where
  model : String
  scoutApiUrl : String
  linkupApiKey : Option String
  linkupApiUrl : String
  linkupDepth : String
  linkupOutputType : String
  linkupIncludeSources : Bool
  linkupIncludeInlineCitations : Bool
  linkupIncludeImages : Bool
  linkupFromDate : Option String
  linkupToDate : Option String
  linkupIncludeDomains : Option (List String)
  linkupExcludeDomains : Option (List String)
  linkupStructuredOutputSchema : Option Json

/-- The constructor of `ScoutAssistantOrchestrator`. -/
def mkOrchestrator (config : OrchestratorConfig) : Orchestrator :=
  { model := config.model.getD "gpt-4.1-mini"
    scoutApiUrl := config.scoutApiUrl
    linkupApiKey := config.linkupApiKey
    linkupApiUrl := config.linkupApiUrl.getD "https://api.linkup.so/v1/search"
    linkupDepth := config.linkupDepth.getD "standard"
    linkupOutputType := config.linkupOutputType.getD "sourcedAnswer"
    linkupIncludeSources := config.linkupIncludeSources.getD true
    linkupIncludeInlineCitations := config.linkupIncludeInlineCitations.getD false
    linkupIncludeImages := config.linkupIncludeImages.getD false
    linkupFromDate := config.linkupFromDate
    linkupToDate := config.linkupToDate
    linkupIncludeDomains := config.linkupIncludeDomains
    linkupExcludeDomains := config.linkupExcludeDomains
    linkupStructuredOutputSchema := config.linkupStructuredOutputSchema }

/-- JavaScript truthiness of a string value. -/
def strTruthy (s : String) : Bool := s != ""

/-- JavaScript truthiness of a `string | undefined` value. -/
def optStrTruthy : Option String → Bool
  | none => false
  | some s => s != ""

/-- JavaScript truthiness of `xs?.length` for `string[] | undefined`. -/
def optListTruthy : Option (List String) → Bool
  | none => false
  | some l => !l.isEmpty

/-- Embedding of `pruneConversation`: keeps the most recent `limit` messages
(`messages.slice(-limit)`). -/
def pruneConversation (messages : List ChatMessage) (limit : Nat) : List ChatMessage :=
  if messages.length ≤ limit then messages
  else messages.drop (messages.length - limit)

/-- Embedding of `buildLinkupPayload`: one request payload per query, from the query and
the static configuration. Optional fields are attached under the same
truthiness / `!== undefined` conditions as the source. -/
def buildLinkupPayload (o : Orchestrator) (query : String) : LinkupPayload :=
  { q := query
    depth := o.linkupDepth
    outputType := o.linkupOutputType
    includeSources := o.linkupIncludeSources
    includeInlineCitations := o.linkupIncludeInlineCitations
    includeImages := o.linkupIncludeImages
    fromDate := if optStrTruthy o.linkupFromDate then o.linkupFromDate else none
    toDate := if optStrTruthy o.linkupToDate then o.linkupToDate else none
    includeDomains :=
      if optListTruthy o.linkupIncludeDomains then o.linkupIncludeDomains else none
    excludeDomains :=
      if optListTruthy o.linkupExcludeDomains then o.linkupExcludeDomains else none
    structuredOutputSchema := o.linkupStructuredOutputSchema }

/-- Oracle describing how one `fetch` of a Linkup query plays out:
the whole guarded attempt either throws (`networkError`, with the thrown
value's message when it was an `Error` instance), returns a non-ok HTTP
response, or succeeds with a JSON body. -/
inductive LinkupFetchOutcome where
  | networkError (message : Option String)
  | httpError (status : Nat) (errorText : String) (tookMs : Nat)
  | success (data : Json) (tookMs : Nat)

/-- The body of the per-query loop of `callLinkup`: turn one fetch outcome
into the `LinkupResult` that is pushed. -/
def linkupOne (o : Orchestrator) (outcome : LinkupFetchOutcome) (query : String) :
    LinkupResult :=
  let payload := buildLinkupPayload o query
  match outcome with
  | .networkError msg =>
      { query := query, ok := false, data := none
        error := some (msg.getD "Unknown Linkup error")
        took_ms := none, payload := payload }
  | .httpError status errorText tookMs =>
      { query := query, ok := false, data := none
        error := some ("Linkup returned " ++ toString status ++ ": " ++ errorText)
        took_ms := some tookMs, payload := payload }
  | .success data tookMs =>
      { query := query, ok := true, data := some data
        error := none, took_ms := some tookMs, payload := payload }

/-- Embedding of `callLinkup`. Returns the result list together with the list of queries
for which a network request was actually issued (the fetch trace: empty on
the fail-fast unconfigured path). -/
def callLinkup (o : Orchestrator) (fetch : String → LinkupFetchOutcome)
    (queries : List String) : List LinkupResult × List String :=
  if !strTruthy o.linkupApiUrl || !optStrTruthy o.linkupApiKey || queries.isEmpty then
    (queries.map (fun query =>
      { query := query, ok := false, data := none
        payload := buildLinkupPayload o query
        error := some (if strTruthy o.linkupApiUrl then "Linkup API key missing"
                       else "Linkup API not configured")
        took_ms := none }), [])
  else
    (queries.map (fun query => linkupOne o (fetch query) query), queries)

/-- Oracle for the single extraction-service call: either the fetch (or
`response.json()`) throws — modelled at the call site as `Except.error`,
uncaught in the source — or an HTTP response arrives. -/
inductive ScoutFetchOutcome where
  | httpError (status : Nat)
  | success (data : ScoutProcessorResponse)

/-- How `callScoutProcessor` converts an HTTP response into a
`ScoutProcessorResponse`: a non-ok response becomes a synthetic response
with empty parameters and an error annotation in `meta`; an ok response's
body is used as-is. -/
def scoutValue (sessionId : String) (promptOverride : String) :
    ScoutFetchOutcome → ScoutProcessorResponse
  | .httpError status =>
      { session_id := some (some sessionId)
        prompt := promptOverride
        parameters := []
        meta := [("error", Json.str ("Scout processor returned " ++ toString status))] }
  | .success data => data

/-- Embedding of `callScoutProcessor`: a thrown fetch propagates (there is no
`try`/`catch` around it in the source); an HTTP response is converted by
`scoutValue`. -/
def callScoutProcessor (sessionId : String) (promptOverride : String)
    (outcome : Except String ScoutFetchOutcome) : Except String ScoutProcessorResponse :=
  outcome.map (scoutValue sessionId promptOverride)

/-- Executable model of JavaScript `String.prototype.trim`: drop leading
and trailing whitespace. -/
def jsTrim (s : String) : String :=
  String.mk
    (((s.data.dropWhile Char.isWhitespace).reverse.dropWhile Char.isWhitespace).reverse)

/-- Embedding of `generateFinalMessage`: the text-generation oracle either throws
(`Except.error`, uncaught in the source) or yields `output_text`
(`none` when nullish); the nullish fallback literal is applied and the
result trimmed, exactly as in the source. -/
def generateFinalMessage (finalCall : Except String (Option String)) :
    Except String String :=
  match finalCall with
  | .error e => .error e
  | .ok t => .ok (jsTrim (t.getD "Here\x27s what I found for you."))

structure RunOptions where
  sessionId : Option String
  messages : List ChatMessage
  useFullHistory : Bool

/-- The oracle environment of one turn: the clock reading used for
`Date.now()` at session-id generation, and the behavior of each external
collaborator. `analysisCall` is `Except.error` when the reasoning call
itself throws, `Except.ok none` when `safeJsonParse` of its `output_text`
returns `null`, and `Except.ok (some a)` when the text parses to the
runtime value `a` (unvalidated, hence arbitrary `stage`). -/
structure Env where
  now : Nat
  analysisCall : Except String (Option AnalysisResult)
  linkupFetch : String → LinkupFetchOutcome
  scoutFetch : Except String ScoutFetchOutcome
  finalCall : Except String (Option String)

/-- Observable invocations of the turn, in order. -/
inductive Event where
  | analysisCall : Event
  | linkupCall : Event
  | linkupFetch (query : String) : Event
  | scoutCall : Event
  | composeCall : Event
deriving Repr, DecidableEq

/-- The result object built on the `stage === "collecting"` short-circuit. -/
def collectingResult (o : Orchestrator) (analysis : AnalysisResult)
    (resolvedSessionId : String) : OrchestratorResult :=
  { sessionId := resolvedSessionId
    stage := analysis.stage
    assistantMessage :=
      analysis.follow_up_question.getD
        "I need a bit more detail to keep planning. Could you clarify what you have in mind?"
    missingInformation := analysis.missing_information
    analysis := analysis
    parameters := []
    linkup := { attempted := false, queries := analysis.search_queries, results := [] }
    scout := none
    meta := [("reason", Json.str "information_gathering"),
             ("model", Json.str o.model)] }

/-- The gated extraction step of `run`:
`analysis.should_call_scout ? await this.callScoutProcessor(...) : null`. -/
def scoutStep (env : Env) (analysis : AnalysisResult) (resolvedSessionId : String) :
    Except String (Option ScoutProcessorResponse) :=
  if analysis.should_call_scout then
    (callScoutProcessor resolvedSessionId
      (analysis.scout_prompt.getD analysis.summary) env.scoutFetch).map some
  else
    .ok none

/-- The non-collecting tail of `run`: gated Linkup call, gated Scout call,
then the composer, assembling the final result. The first component is the
event trace accumulated up to the point where the turn ends (normally or by
an uncaught throw). -/
def runNonCollecting (o : Orchestrator) (env : Env) (analysis : AnalysisResult)
    (resolvedSessionId : String) : List Event × Except String OrchestratorResult :=
  let lk :=
    if analysis.should_call_linkup then callLinkup o env.linkupFetch analysis.search_queries
    else ([], [])
  let linkupEvents :=
    if analysis.should_call_linkup then Event.linkupCall :: lk.2.map Event.linkupFetch
    else []
  let scoutEvents := if analysis.should_call_scout then [Event.scoutCall] else []
  match scoutStep env analysis resolvedSessionId with
  | .error e => (Event.analysisCall :: (linkupEvents ++ scoutEvents), .error e)
  | .ok scoutResponse =>
      let parameters := match scoutResponse with
        | some r => r.parameters
        | none => []
      let events := Event.analysisCall :: (linkupEvents ++ scoutEvents ++ [Event.composeCall])
      match generateFinalMessage env.finalCall with
      | .error e => (events, .error e)
      | .ok assistantMessage =>
          (events,
           .ok { sessionId := resolvedSessionId
                 stage := analysis.stage
                 assistantMessage := assistantMessage
                 missingInformation := analysis.missing_information
                 analysis := analysis
                 parameters := parameters
                 linkup := { attempted := analysis.should_call_linkup
                             queries := analysis.search_queries
                             results := lk.1 }
                 scout := scoutResponse
                 meta := [("model", Json.str o.model),
                          ("linkupAttempted", Json.bool analysis.should_call_linkup),
                          ("scoutAttempted", Json.bool analysis.should_call_scout)] })

/-- Embedding of `ScoutAssistantOrchestrator.run`, with its event trace. An
`Except.error` second component is an uncaught throw (no result returned to
the caller). -/
def run (o : Orchestrator) (env : Env) (opts : RunOptions) :
    List Event × Except String OrchestratorResult :=
  let resolvedSessionId := opts.sessionId.getD ("session-" ++ toString env.now)
  match env.analysisCall with
  | .error e => ([Event.analysisCall], .error e)
  | .ok none =>
      ([Event.analysisCall], .error "OpenAI analysis failed to return a valid directive")
  | .ok (some analysis) =>
      if analysis.stage = "collecting" then
        ([Event.analysisCall], .ok (collectingResult o analysis resolvedSessionId))
      else
        runNonCollecting o env analysis resolvedSessionId

/-! Concrete fixtures used to evaluate the embedding on closed inputs. -/

def sampleConfig : OrchestratorConfig :=
  { openaiApiKey := "test-openai-key"
    model := none
    scoutApiUrl := "https://scout.example/api/process"
    linkupApiKey := some "test-linkup-key"
    linkupApiUrl := none
    linkupDepth := none
    linkupOutputType := none
    linkupIncludeSources := none
    linkupIncludeInlineCitations := none
    linkupIncludeImages := none
    linkupFromDate := none
    linkupToDate := none
    linkupIncludeDomains := none
    linkupExcludeDomains := none
    linkupStructuredOutputSchema := none }

def sampleOrch : Orchestrator := mkOrchestrator sampleConfig

/-- An orchestrator whose Linkup credential is absent (the endpoint still
gets its constructor default). -/
def noKeyOrch : Orchestrator := mkOrchestrator { sampleConfig with linkupApiKey := none }

def sampleMessages : List ChatMessage :=
  [{ role := Role.user, content := "Plan a weekend in Paris", timestamp := none }]

def sampleOpts : RunOptions :=
  { sessionId := some "s1", messages := sampleMessages, useFullHistory := false }

def noSidOpts : RunOptions :=
  { sessionId := none, messages := sampleMessages, useFullHistory := false }

def fetchAlwaysFail : String → LinkupFetchOutcome :=
  fun _ => LinkupFetchOutcome.networkError none

/-- A directive in the `searching` stage with both gates off. -/
def baseAnalysis : AnalysisResult :=
  { stage := "searching"
    summary := "user wants a Paris weekend"
    missing_information := []
    follow_up_question := none
    search_queries := ["romantic restaurants paris"]
    should_call_linkup := false
    should_call_scout := false
    scout_prompt := none
    confidence := none }

/-- A runtime directive whose `stage` lies outside the documented enum:
`safeJsonParse` plus the unchecked cast lets such values through. -/
def bogusAnalysis : AnalysisResult := { baseAnalysis with stage := "bogus" }

def collectAnalysis : AnalysisResult :=
  { baseAnalysis with
      stage := "collecting"
      follow_up_question := some "When are you traveling?"
      missing_information := ["dates", "budget"] }

def collectNoFollowUp : AnalysisResult :=
  { collectAnalysis with follow_up_question := none }

def bothGatesAnalysis : AnalysisResult :=
  { baseAnalysis with should_call_linkup := true, should_call_scout := true
                      scout_prompt := some "trip to paris" }

def mkEnv (a : Except String (Option AnalysisResult))
    (sf : Except String ScoutFetchOutcome)
    (fc : Except String (Option String)) : Env :=
  { now := 1730000000000
    analysisCall := a
    linkupFetch := fetchAlwaysFail
    scoutFetch := sf
    finalCall := fc }

/-- The result produced by the collecting short-circuit on the sample
fixtures, used to evaluate session continuity on a closed input. -/
def collectRunResult : OrchestratorResult := collectingResult sampleOrch collectAnalysis "s1"

/-- The synthesized outcome for one query on `noKeyOrch`. -/
def noKeyOutcome : LinkupResult :=
  { query := "romantic restaurants paris"
    ok := false
    data := none
    payload := buildLinkupPayload noKeyOrch "romantic restaurants paris"
    error := some "Linkup API key missing"
    took_ms := none }

/-- Environment: collecting directive. -/
def envCollect : Env :=
  mkEnv (Except.ok (some collectAnalysis)) (Except.ok (ScoutFetchOutcome.httpError 500))
    (Except.ok none)

/-- Environment: collecting directive without a follow-up question. -/
def envCollectNoFU : Env :=
  mkEnv (Except.ok (some collectNoFollowUp)) (Except.ok (ScoutFetchOutcome.httpError 500))
    (Except.ok none)

/-- Environment: parseable directive with a stage outside the enum. -/
def envBogus : Env :=
  mkEnv (Except.ok (some bogusAnalysis)) (Except.ok (ScoutFetchOutcome.httpError 500))
    (Except.ok none)

/-- Environment: the analyzer text failed to parse as JSON. -/
def envNoParse : Env :=
  mkEnv (Except.ok none) (Except.ok (ScoutFetchOutcome.httpError 500)) (Except.ok none)

/-- Environment: searching directive, composer returns the empty string. -/
def envEmptyFinal : Env :=
  mkEnv (Except.ok (some baseAnalysis)) (Except.ok (ScoutFetchOutcome.httpError 500))
    (Except.ok (some ""))

/-- Environment: searching directive, composer returns no text. -/
def envBase : Env :=
  mkEnv (Except.ok (some baseAnalysis)) (Except.ok (ScoutFetchOutcome.httpError 500))
    (Except.ok none)

/-- Environment: both gates on, extraction collaborator answers 503. -/
def envBothGates : Env :=
  mkEnv (Except.ok (some bothGatesAnalysis)) (Except.ok (ScoutFetchOutcome.httpError 503))
    (Except.ok (some "Voila"))

/-- Environment: searching directive, the text-generation call throws. -/
def envThrowFinal : Env :=
  mkEnv (Except.ok (some baseAnalysis)) (Except.ok (ScoutFetchOutcome.httpError 500))
    (Except.error "OpenAI final call failed")

/-- Environment: both gates on, the extraction fetch throws. -/
def envThrowScout : Env :=
  mkEnv (Except.ok (some bothGatesAnalysis)) (Except.error "fetch failed")
    (Except.ok (some "hello"))

/-! Helper lemmas. -/

theorem linkupOne_query (o : Orchestrator) (out : LinkupFetchOutcome) (q : String) :
    (linkupOne o out q).query = q := by
  cases out <;> rfl

theorem linkupOne_payload (o : Orchestrator) (out : LinkupFetchOutcome) (q : String) :
    (linkupOne o out q).payload = buildLinkupPayload o q := by
  cases out <;> rfl

theorem session_string_ne_empty (s : String) : ("session-" ++ s) ≠ "" := by
  intro h
  have hd : ("session-" ++ s).data = ("" : String).data := congrArg String.data h
  rw [String.data_append] at hd
  have hnil : "session-".data = [] ∧ s.data = [] := List.append_eq_nil.mp hd
  exact absurd hnil.1 (by decide)

/-- Evaluation of `run` on a parsed directive in the collecting stage. -/
theorem run_collecting_eq (o : Orchestrator) (env : Env) (opts : RunOptions)
    (a : AnalysisResult) (hA : env.analysisCall = Except.ok (some a))
    (hst : a.stage = "collecting") :
    run o env opts =
      ([Event.analysisCall],
       Except.ok (collectingResult o a
         (opts.sessionId.getD ("session-" ++ toString env.now)))) := by
  unfold run
  rw [hA]
  simp [hst]

/-- Evaluation of `run` on a parsed directive outside the collecting stage. -/
theorem run_ok_some (o : Orchestrator) (env : Env) (opts : RunOptions)
    (a : AnalysisResult) (hA : env.analysisCall = Except.ok (some a))
    (hst : ¬ a.stage = "collecting") :
    run o env opts =
      runNonCollecting o env a (opts.sessionId.getD ("session-" ++ toString env.now)) := by
  unfold run
  rw [hA]
  simp [hst]

/-- Evaluation of `scoutStep` when the extraction fetch does not throw. -/
theorem scoutStep_of_fetch_ok (env : Env) (a : AnalysisResult) (sid : String)
    (v : ScoutFetchOutcome) (hv : env.scoutFetch = Except.ok v) :
    scoutStep env a sid =
      Except.ok (if a.should_call_scout then
        some (scoutValue sid (a.scout_prompt.getD a.summary) v) else none) := by
  unfold scoutStep callScoutProcessor
  cases hb : a.should_call_scout <;> simp [hb, hv, Except.map]

/-- The event trace of the non-collecting tail when the extraction fetch
step succeeds. -/
theorem runNonCollecting_trace (o : Orchestrator) (env : Env) (a : AnalysisResult)
    (sid : String) (sr : Option ScoutProcessorResponse)
    (hs : scoutStep env a sid = Except.ok sr) :
    (runNonCollecting o env a sid).1 =
      Event.analysisCall ::
        ((if a.should_call_linkup then
            Event.linkupCall ::
              (callLinkup o env.linkupFetch a.search_queries).2.map Event.linkupFetch
          else []) ++
         (if a.should_call_scout then [Event.scoutCall] else []) ++
         [Event.composeCall]) := by
  unfold runNonCollecting
  cases hb : a.should_call_linkup <;>
    simp only [hb, hs, Bool.false_eq_true, if_true, if_false] <;>
    cases hf : env.finalCall <;>
    simp [generateFinalMessage, hf]

/-- The result of the non-collecting tail when the extraction step and the
composer call both succeed. -/
theorem runNonCollecting_result (o : Orchestrator) (env : Env) (a : AnalysisResult)
    (sid : String) (sr : Option ScoutProcessorResponse) (t : Option String)
    (hs : scoutStep env a sid = Except.ok sr)
    (ht : env.finalCall = Except.ok t) :
    (runNonCollecting o env a sid).2 =
      Except.ok
        { sessionId := sid
          stage := a.stage
          assistantMessage := jsTrim (t.getD "Here\x27s what I found for you.")
          missingInformation := a.missing_information
          analysis := a
          parameters := (sr.map (fun r => r.parameters)).getD []
          linkup := { attempted := a.should_call_linkup
                      queries := a.search_queries
                      results := if a.should_call_linkup then
                        (callLinkup o env.linkupFetch a.search_queries).1 else [] }
          scout := sr
          meta := [("model", Json.str o.model),
                   ("linkupAttempted", Json.bool a.should_call_linkup),
                   ("scoutAttempted", Json.bool a.should_call_scout)] } := by
  unfold runNonCollecting
  cases hb : a.should_call_linkup <;>
    cases sr <;>
    simp [hb, hs, generateFinalMessage, ht]

theorem map_query_of_pointwise (f : String → LinkupResult)
    (hf : ∀ q, (f q).query = q) (l : List String) :
    (l.map f).map (fun r => r.query) = l := by
  induction l with
  | nil => rfl
  | cons x xs ih => simp [hf, ih]

/-- Evaluation of `scoutStep` when the gated extraction fetch throws. -/
theorem scoutStep_of_fetch_error (env : Env) (a : AnalysisResult) (sid : String)
    (e : String) (he : env.scoutFetch = Except.error e)
    (hb : a.should_call_scout = true) :
    scoutStep env a sid = Except.error e := by
  simp [scoutStep, hb, callScoutProcessor, he, Except.map]

/-- A thrown extraction step propagates out of the non-collecting tail. -/
theorem runNonCollecting_scout_error (o : Orchestrator) (env : Env) (a : AnalysisResult)
    (sid : String) (e : String) (hs : scoutStep env a sid = Except.error e) :
    (runNonCollecting o env a sid).2 = Except.error e := by
  unfold runNonCollecting
  simp only [hs]

/-- A thrown composer call propagates out of the non-collecting tail: no
fallback message is produced. -/
theorem runNonCollecting_composer_error (o : Orchestrator) (env : Env)
    (a : AnalysisResult) (sid : String) (sr : Option ScoutProcessorResponse) (e : String)
    (hs : scoutStep env a sid = Except.ok sr)
    (he : env.finalCall = Except.error e) :
    (runNonCollecting o env a sid).2 = Except.error e := by
  unfold runNonCollecting
  simp only [hs]
  simp [generateFinalMessage, he]

theorem ite_optStr_ne_none (x : Option String) :
    ((if optStrTruthy x then x else none) ≠ none) ↔ optStrTruthy x = true := by
  cases x with
  | none => simp [optStrTruthy]
  | some s => by_cases hs : s = "" <;> simp [optStrTruthy, hs]

theorem ite_optList_ne_none (x : Option (List String)) :
    ((if optListTruthy x then x else none) ≠ none) ↔ optListTruthy x = true := by
  cases x with
  | none => simp [optListTruthy]
  | some l => cases l <;> simp [optListTruthy]

/-! Claim theorems. -/

/-- C3: for every query list, `callLinkup` yields exactly one outcome per
requested query, in request order, regardless of which queries succeed or
fail (and also on the unconfigured path). -/
theorem search_outcome_cardinality (o : Orchestrator)
    (fetch : String → LinkupFetchOutcome) (queries : List String) :
    (callLinkup o fetch queries).1.length = queries.length ∧
    (callLinkup o fetch queries).1.map (fun r => r.query) = queries := by
  have hmap : (callLinkup o fetch queries).1.map (fun r => r.query) = queries := by
    unfold callLinkup
    split
    · exact map_query_of_pointwise _ (fun q => rfl) queries
    · exact map_query_of_pointwise _ (fun q => linkupOne_query o (fetch q) q) queries
  refine ⟨?_, hmap⟩
  have hlen := congrArg List.length hmap
  simpa using hlen

/-- C4: when the Linkup collaborator is unconfigured (falsy endpoint or
falsy credential), `callLinkup` issues no network request and synthesizes,
for every query, a failed outcome whose error is one of the two
missing-configuration literals. -/
theorem unconfigured_search_fail_fast (o : Orchestrator)
    (fetch : String → LinkupFetchOutcome) (queries : List String)
    (hcfg : strTruthy o.linkupApiUrl = false ∨ optStrTruthy o.linkupApiKey = false)
    (hne : queries ≠ []) :
    (callLinkup o fetch queries).2 = [] ∧
    (callLinkup o fetch queries).1.map (fun r => r.query) = queries ∧
    ∀ r ∈ (callLinkup o fetch queries).1,
      r.ok = false ∧ r.data = none ∧ r.took_ms = none ∧
      (r.error = some "Linkup API key missing" ∨
       r.error = some "Linkup API not configured") := by
  have hcond :
      (!strTruthy o.linkupApiUrl || !optStrTruthy o.linkupApiKey || queries.isEmpty)
        = true := by
    rcases hcfg with h | h <;> simp [h]
  unfold callLinkup
  rw [if_pos hcond]
  refine ⟨rfl, map_query_of_pointwise _ (fun q => rfl) queries, ?_⟩
  intro r hr
  simp only [List.mem_map] at hr
  obtain ⟨q, hq, rfl⟩ := hr
  refine ⟨rfl, rfl, rfl, ?_⟩
  cases h : strTruthy o.linkupApiUrl <;> simp [h]

/-- C4 witness: with the credential absent, two queries produce two
synthesized failures and no fetch. -/
theorem unconfigured_search_fail_fast_witness :
    (strTruthy noKeyOrch.linkupApiUrl = false ∨
      optStrTruthy noKeyOrch.linkupApiKey = false) ∧
    (["romantic restaurants paris"] ≠ ([] : List String)) ∧
    (callLinkup noKeyOrch fetchAlwaysFail ["romantic restaurants paris"]).2 = [] ∧
    (callLinkup noKeyOrch fetchAlwaysFail ["romantic restaurants paris"]).1.map
      (fun r => r.query) = ["romantic restaurants paris"] :=
  ⟨Or.inr rfl, by decide,
   (unconfigured_search_fail_fast noKeyOrch fetchAlwaysFail _ (Or.inr rfl) (by decide)).1,
   (unconfigured_search_fail_fast noKeyOrch fetchAlwaysFail _ (Or.inr rfl) (by decide)).2.1⟩

/-- C10: every outcome `callLinkup` returns — including synthesized ones on
the unconfigured path — carries the payload built deterministically from
its query and the static configuration, with the optional fields present
exactly when the configuration makes them truthy. -/
theorem outcome_payload_from_config (o : Orchestrator)
    (fetch : String → LinkupFetchOutcome) (queries : List String)
    (r : LinkupResult) (hr : r ∈ (callLinkup o fetch queries).1) :
    r.payload = buildLinkupPayload o r.query ∧
    ((buildLinkupPayload o r.query).fromDate ≠ none ↔
      optStrTruthy o.linkupFromDate = true) ∧
    ((buildLinkupPayload o r.query).toDate ≠ none ↔
      optStrTruthy o.linkupToDate = true) ∧
    ((buildLinkupPayload o r.query).includeDomains ≠ none ↔
      optListTruthy o.linkupIncludeDomains = true) ∧
    ((buildLinkupPayload o r.query).excludeDomains ≠ none ↔
      optListTruthy o.linkupExcludeDomains = true) ∧
    (buildLinkupPayload o r.query).structuredOutputSchema
      = o.linkupStructuredOutputSchema := by
  have hp : r.payload = buildLinkupPayload o r.query := by
    unfold callLinkup at hr
    split at hr <;> simp only [List.mem_map] at hr <;> obtain ⟨q, hq, rfl⟩ := hr
    · rfl
    · rw [linkupOne_payload, linkupOne_query]
  exact ⟨hp,
    ite_optStr_ne_none o.linkupFromDate,
    ite_optStr_ne_none o.linkupToDate,
    ite_optList_ne_none o.linkupIncludeDomains,
    ite_optList_ne_none o.linkupExcludeDomains,
    rfl⟩

/-- C10 witness: the synthesized outcome of the unconfigured path carries
the deterministic payload of its query. -/
theorem outcome_payload_from_config_witness :
    noKeyOutcome ∈ (callLinkup noKeyOrch fetchAlwaysFail ["romantic restaurants paris"]).1 ∧
    noKeyOutcome.payload = buildLinkupPayload noKeyOrch noKeyOutcome.query ∧
    ((buildLinkupPayload noKeyOrch noKeyOutcome.query).fromDate ≠ none ↔
      optStrTruthy noKeyOrch.linkupFromDate = true) := by
  have hlist :
      (callLinkup noKeyOrch fetchAlwaysFail ["romantic restaurants paris"]).1
        = [noKeyOutcome] := rfl
  have hm : noKeyOutcome ∈
      (callLinkup noKeyOrch fetchAlwaysFail ["romantic restaurants paris"]).1 := by
    rw [hlist]
    exact List.mem_cons_self _ _
  have hc := outcome_payload_from_config noKeyOrch fetchAlwaysFail
    ["romantic restaurants paris"] noKeyOutcome hm
  exact ⟨hm, hc.1, hc.2.1⟩

/-- C1 counterexample: a response that parses as JSON but whose `stage`
lies outside the documented enum does NOT abort the turn — the unchecked
cast lets it through and a full result is returned, carrying the invalid
stage. -/
theorem invalid_stage_not_fatal_cex :
    Except.map (fun r => r.stage) (run sampleOrch envBogus sampleOpts).2
      = Except.ok "bogus" := by
  rfl

/-- C1 (amended): the analysis step aborts the turn — with the fatal error
and no result — exactly in the unparseable-text case (`safeJsonParse`
returning `null`); a value that parses is used without any schema
validation, so field drift or an invalid enum value does not abort. -/
theorem unparseable_directive_fatal (o : Orchestrator) (env : Env) (opts : RunOptions)
    (h : env.analysisCall = Except.ok none) :
    run o env opts =
      ([Event.analysisCall],
       Except.error "OpenAI analysis failed to return a valid directive") := by
  unfold run
  rw [h]

/-- C1 witness: a concrete unparseable analyzer response aborts the turn. -/
theorem unparseable_directive_fatal_witness :
    envNoParse.analysisCall = Except.ok none ∧
    run sampleOrch envNoParse sampleOpts =
      ([Event.analysisCall],
       Except.error "OpenAI analysis failed to return a valid directive") :=
  ⟨rfl, unparseable_directive_fatal sampleOrch envNoParse sampleOpts rfl⟩

/-- C2: on a collecting directive the turn short-circuits: empty search
outcomes, no extraction, empty parameters, the assistant message equals the
follow-up question when present, and no search/extraction/composition call
is made. -/
theorem collecting_short_circuit (o : Orchestrator) (env : Env) (opts : RunOptions)
    (a : AnalysisResult) (hA : env.analysisCall = Except.ok (some a))
    (hst : a.stage = "collecting") :
    Except.map (fun r => r.linkup.results) (run o env opts).2 = Except.ok [] ∧
    Except.map (fun r => r.linkup.attempted) (run o env opts).2 = Except.ok false ∧
    Except.map (fun r => r.scout) (run o env opts).2 = Except.ok none ∧
    Except.map (fun r => r.parameters) (run o env opts).2 = Except.ok [] ∧
    (∀ q, a.follow_up_question = some q →
      Except.map (fun r => r.assistantMessage) (run o env opts).2 = Except.ok q) ∧
    (run o env opts).1 = [Event.analysisCall] := by
  rw [run_collecting_eq o env opts a hA hst]
  refine ⟨rfl, rfl, rfl, rfl, ?_, rfl⟩
  intro q hq
  simp [collectingResult, Except.map, hq]

/-- C2 witness: the sample collecting directive short-circuits and returns
its follow-up question. -/
theorem collecting_short_circuit_witness :
    envCollect.analysisCall = Except.ok (some collectAnalysis) ∧
    collectAnalysis.stage = "collecting" ∧
    Except.map (fun r => r.linkup.results) (run sampleOrch envCollect sampleOpts).2
      = Except.ok [] ∧
    Except.map (fun r => r.assistantMessage) (run sampleOrch envCollect sampleOpts).2
      = Except.ok "When are you traveling?" ∧
    (run sampleOrch envCollect sampleOpts).1 = [Event.analysisCall] := by
  have h := collecting_short_circuit sampleOrch envCollect sampleOpts collectAnalysis rfl rfl
  exact ⟨rfl, rfl, h.1, h.2.2.2.2.1 "When are you traveling?" rfl, h.2.2.2.2.2⟩

/-- C9: on a collecting directive without a follow-up question, the
assistant message is the fixed literal clarification request. -/
theorem collecting_default_followup (o : Orchestrator) (env : Env) (opts : RunOptions)
    (a : AnalysisResult) (hA : env.analysisCall = Except.ok (some a))
    (hst : a.stage = "collecting") (hq : a.follow_up_question = none) :
    Except.map (fun r => r.assistantMessage) (run o env opts).2 =
      Except.ok "I need a bit more detail to keep planning. Could you clarify what you have in mind?" := by
  rw [run_collecting_eq o env opts a hA hst]
  simp [collectingResult, Except.map, hq]

/-- C9 witness: a concrete collecting directive with no follow-up question
yields the fixed literal. -/
theorem collecting_default_followup_witness :
    envCollectNoFU.analysisCall = Except.ok (some collectNoFollowUp) ∧
    collectNoFollowUp.stage = "collecting" ∧
    collectNoFollowUp.follow_up_question = none ∧
    Except.map (fun r => r.assistantMessage) (run sampleOrch envCollectNoFU sampleOpts).2 =
      Except.ok "I need a bit more detail to keep planning. Could you clarify what you have in mind?" :=
  ⟨rfl, rfl, rfl,
   collecting_default_followup sampleOrch envCollectNoFU sampleOpts collectNoFollowUp rfl rfl rfl⟩

/-- Any successful turn carries the resolved session id. -/
theorem runNonCollecting_sessionId (o : Orchestrator) (env : Env) (a : AnalysisResult)
    (sid : String) (r : OrchestratorResult)
    (hr : (runNonCollecting o env a sid).2 = Except.ok r) : r.sessionId = sid := by
  unfold runNonCollecting at hr
  cases hs : scoutStep env a sid with
  | error e =>
      simp only [hs] at hr
      exact Except.noConfusion hr
  | ok sr =>
      simp only [hs] at hr
      cases hf : env.finalCall with
      | error e => simp [generateFinalMessage, hf] at hr
      | ok t =>
          simp [generateFinalMessage, hf] at hr
          rw [← hr]

theorem run_sessionId (o : Orchestrator) (env : Env) (opts : RunOptions)
    (r : OrchestratorResult) (hr : (run o env opts).2 = Except.ok r) :
    r.sessionId = opts.sessionId.getD ("session-" ++ toString env.now) := by
  cases hA : env.analysisCall with
  | error e => unfold run at hr; rw [hA] at hr; simp at hr
  | ok x =>
      cases x with
      | none => unfold run at hr; rw [hA] at hr; simp at hr
      | some a =>
          by_cases hst : a.stage = "collecting"
          · rw [run_collecting_eq o env opts a hA hst] at hr
            simp at hr
            rw [← hr]
            rfl
          · rw [run_ok_some o env opts a hA hst] at hr
            exact runNonCollecting_sessionId o env a _ r hr

/-- C8: a supplied session id is returned verbatim; an absent one is
replaced by the freshly generated, non-empty `session-` + clock id. -/
theorem session_continuity (o : Orchestrator) (env : Env) (opts : RunOptions)
    (r : OrchestratorResult) (hr : (run o env opts).2 = Except.ok r) :
    (∀ s, opts.sessionId = some s → r.sessionId = s) ∧
    (opts.sessionId = none →
      r.sessionId = "session-" ++ toString env.now ∧ r.sessionId ≠ "") := by
  have h := run_sessionId o env opts r hr
  constructor
  · intro s hs
    rw [h, hs]
    rfl
  · intro hs
    rw [h, hs]
    exact ⟨rfl, session_string_ne_empty _⟩

/-- C8 witness: supplying session id `s1` returns `s1` verbatim. -/
theorem session_continuity_witness :
    (run sampleOrch envCollect sampleOpts).2 = Except.ok collectRunResult ∧
    sampleOpts.sessionId = some "s1" ∧
    collectRunResult.sessionId = "s1" :=
  ⟨rfl, rfl,
   (session_continuity sampleOrch envCollect sampleOpts collectRunResult rfl).1 "s1" rfl⟩

/-- C5 counterexample: three concrete failure modes of the claim. When the
text-generation collaborator returns the empty string, the
nullish-coalescing fallback does not fire and the composed
`assistantMessage` of a non-collecting turn is empty. When the
text-generation call itself throws, the turn aborts with the thrown error
and no message at all — there is no static fallback for a thrown composer.
And when the gated extraction fetch throws, the turn likewise aborts before
composition. -/
theorem composer_failure_modes_cex :
    Except.map (fun r => r.assistantMessage) (run sampleOrch envEmptyFinal sampleOpts).2
      = Except.ok "" ∧
    (run sampleOrch envThrowFinal sampleOpts).2 =
      Except.error "OpenAI final call failed" ∧
    (run sampleOrch envThrowScout sampleOpts).2 = Except.error "fetch failed" := by
  exact ⟨rfl, rfl, rfl⟩

/-- C5 (amended): for every non-collecting turn, the composed assistant
message equals the trimmed text returned by the text-generation
collaborator, or the literal static fallback when the collaborator returns
no text — under every combination of search outcomes and extraction HTTP
success or failure — and it is non-empty whenever the collaborator returns
no text. Three failure modes break the original non-emptiness guarantee:
returned text that trims to the empty string yields an empty message; a
thrown text-generation call propagates uncaught and aborts the turn with
no message (no fallback); and a thrown gated extraction fetch aborts the
turn before composition. -/
theorem composer_fallback_amended (o : Orchestrator) (env : Env) (opts : RunOptions)
    (a : AnalysisResult)
    (hA : env.analysisCall = Except.ok (some a))
    (hst : ¬ a.stage = "collecting") :
    (∀ v t, env.scoutFetch = Except.ok v → env.finalCall = Except.ok t →
      Except.map (fun r => r.assistantMessage) (run o env opts).2 =
        Except.ok (jsTrim (t.getD "Here\x27s what I found for you.")) ∧
      (t = none →
        Except.map (fun r => r.assistantMessage) (run o env opts).2 ≠ Except.ok "")) ∧
    (∀ v e, env.scoutFetch = Except.ok v → env.finalCall = Except.error e →
      (run o env opts).2 = Except.error e) ∧
    (∀ e, env.scoutFetch = Except.error e → a.should_call_scout = true →
      (run o env opts).2 = Except.error e) := by
  rw [run_ok_some o env opts a hA hst]
  refine ⟨?_, ?_, ?_⟩
  · intro v t hv ht
    rw [runNonCollecting_result o env a _ _ t (scoutStep_of_fetch_ok env a _ v hv) ht]
    refine ⟨rfl, ?_⟩
    intro hn
    subst hn
    simp only [Except.map, Option.getD_none, ne_eq, Except.ok.injEq]
    decide
  · intro v e hv he
    exact runNonCollecting_composer_error o env a _ _ e
      (scoutStep_of_fetch_ok env a _ v hv) he
  · intro e he hb
    exact runNonCollecting_scout_error o env a _ e
      (scoutStep_of_fetch_error env a _ e he hb)

/-- C5 witness: with search and extraction both failed and the composer
returning no text, the message is the literal fallback (non-empty); and on
the concrete composer-throw environment the turn aborts with that error. -/
theorem composer_fallback_amended_witness :
    envBase.analysisCall = Except.ok (some baseAnalysis) ∧
    (¬ baseAnalysis.stage = "collecting") ∧
    Except.map (fun r => r.assistantMessage) (run sampleOrch envBase sampleOpts).2 =
      Except.ok "Here\x27s what I found for you." ∧
    (run sampleOrch envThrowFinal sampleOpts).2 =
      Except.error "OpenAI final call failed" := by
  have h1 := (composer_fallback_amended sampleOrch envBase sampleOpts baseAnalysis
    rfl (by decide)).1 (ScoutFetchOutcome.httpError 500) none rfl rfl
  have h2 := (composer_fallback_amended sampleOrch envThrowFinal sampleOpts baseAnalysis
    rfl (by decide)).2.1 (ScoutFetchOutcome.httpError 500) "OpenAI final call failed"
    rfl rfl
  exact ⟨rfl, by decide, h1.1, h2⟩

/-- C6: when the extraction collaborator answers with a non-success status,
the turn still completes, the synthetic extraction outcome carries empty
parameters and an error marker in its meta mapping, and the result's
parameters are empty. -/
theorem degraded_extraction (o : Orchestrator) (env : Env) (opts : RunOptions)
    (a : AnalysisResult) (status : Nat) (t : Option String)
    (hA : env.analysisCall = Except.ok (some a))
    (hst : ¬ a.stage = "collecting")
    (hsc : a.should_call_scout = true)
    (hf : env.scoutFetch = Except.ok (ScoutFetchOutcome.httpError status))
    (ht : env.finalCall = Except.ok t) :
    Except.map (fun r => r.parameters) (run o env opts).2 = Except.ok [] ∧
    Except.map (fun r => r.scout.map (fun sp => sp.parameters)) (run o env opts).2 =
      Except.ok (some []) ∧
    Except.map (fun r => r.scout.map (fun sp => sp.meta)) (run o env opts).2 =
      Except.ok (some [("error",
        Json.str ("Scout processor returned " ++ toString status))]) := by
  rw [run_ok_some o env opts a hA hst]
  rw [runNonCollecting_result o env a _ _ t
    (scoutStep_of_fetch_ok env a _ (ScoutFetchOutcome.httpError status) hf) ht]
  refine ⟨?_, ?_, ?_⟩ <;> simp [hsc, Except.map, scoutValue]

/-- C6 witness: a 503 from the extraction collaborator still yields a
completed turn with empty parameters and the error marker. -/
theorem degraded_extraction_witness :
    envBothGates.analysisCall = Except.ok (some bothGatesAnalysis) ∧
    (¬ bothGatesAnalysis.stage = "collecting") ∧
    bothGatesAnalysis.should_call_scout = true ∧
    envBothGates.scoutFetch = Except.ok (ScoutFetchOutcome.httpError 503) ∧
    envBothGates.finalCall = Except.ok (some "Voila") ∧
    Except.map (fun r => r.parameters) (run sampleOrch envBothGates sampleOpts).2
      = Except.ok [] ∧
    Except.map (fun r => r.scout.map (fun sp => sp.meta))
      (run sampleOrch envBothGates sampleOpts).2 =
      Except.ok (some [("error", Json.str "Scout processor returned 503")]) := by
  have h := degraded_extraction sampleOrch envBothGates sampleOpts bothGatesAnalysis 503
    (some "Voila") rfl (by decide) rfl rfl rfl
  exact ⟨rfl, by decide, rfl, rfl, rfl, h.1, h.2.2⟩

/-- C7: in the searching and finalizing stages, the Linkup gateway is
invoked iff `should_call_linkup`, the extraction collaborator iff
`should_call_scout` (independently), and the composer runs in every such
turn once the gated calls complete. -/
theorem gate_flags_independent (o : Orchestrator) (env : Env) (opts : RunOptions)
    (a : AnalysisResult) (v : ScoutFetchOutcome)
    (hA : env.analysisCall = Except.ok (some a))
    (hstage : a.stage = "searching" ∨ a.stage = "finalizing")
    (hv : env.scoutFetch = Except.ok v) :
    (Event.linkupCall ∈ (run o env opts).1 ↔ a.should_call_linkup = true) ∧
    (Event.scoutCall ∈ (run o env opts).1 ↔ a.should_call_scout = true) ∧
    Event.composeCall ∈ (run o env opts).1 := by
  have hst : ¬ a.stage = "collecting" := by
    rcases hstage with h | h <;> rw [h] <;> decide
  rw [run_ok_some o env opts a hA hst]
  rw [runNonCollecting_trace o env a _ _ (scoutStep_of_fetch_ok env a _ v hv)]
  cases hb : a.should_call_linkup <;> cases hc : a.should_call_scout <;>
    simp [hb, hc, List.mem_map]

/-- C7 witness: with both flags true, both collaborators are invoked and
the composer runs. -/
theorem gate_flags_independent_witness :
    envBothGates.analysisCall = Except.ok (some bothGatesAnalysis) ∧
    (bothGatesAnalysis.stage = "searching" ∨ bothGatesAnalysis.stage = "finalizing") ∧
    envBothGates.scoutFetch = Except.ok (ScoutFetchOutcome.httpError 503) ∧
    (Event.linkupCall ∈ (run sampleOrch envBothGates sampleOpts).1 ↔
      bothGatesAnalysis.should_call_linkup = true) ∧
    (Event.scoutCall ∈ (run sampleOrch envBothGates sampleOpts).1 ↔
      bothGatesAnalysis.should_call_scout = true) ∧
    Event.composeCall ∈ (run sampleOrch envBothGates sampleOpts).1 := by
  have h := gate_flags_independent sampleOrch envBothGates sampleOpts bothGatesAnalysis
    (ScoutFetchOutcome.httpError 503) rfl (Or.inl rfl) rfl
  exact ⟨rfl, Or.inl rfl, rfl, h.1, h.2.1, h.2.2⟩

end Scout
